import Mathlib

/-!
Verification development for the google-money-calc repository (src/main.go).

The source operates on Go `float64` values.  A finite IEEE-754 binary64
value is an exact rational number, and every Go floating-point operation
returns the nearest representable value (ties to even), so floats are
modelled as rationals together with an explicit rounding function `fl`
(round to nearest, ties to even, 53-bit mantissa, subnormals at 2^-1074).
NaN and the infinities do not arise in any of the claims settled below,
and every float value appearing in them is far below the overflow
threshold, so overflow is not modelled.

Rational arithmetic is routed through `mkRat`-based helpers (`qadd`,
`qmul`, ...) rather than the `Rat` field operations, because the latter
are `@[irreducible]` in Batteries and would block `decide`/`rfl`
evaluation; the helpers compute the same rational values.

Go's `int64`/`int32` arithmetic wraps on overflow; this is modelled by
`wrap64`/`wrap32` over ℤ.  Go's float-to-integer conversions truncate
toward zero and are implementation-specific out of range; the model pins
the amd64 behavior (result `math.MinInt64`/`math.MinInt32`), which is the
platform the repository targets.  Integer division and remainder in Go
truncate toward zero (`Int.tdiv`/`Int.tmod`).
-/

namespace MoneyCalc

/-- One binary-descent step for ⌊log2⌋: add k to the exponent accumulator
when 2^(acc+k) still fits below n. -/
def log2step (n acc k : ℕ) : ℕ := if (1 <<< (acc + k)) ≤ n then acc + k else acc

/-- ⌊log2 n⌋ for n ≥ 1 (0 for n ≤ 1) by binary descent over exponents below
4096 (every number this development touches is far below 2^4096); written
without recursion so evaluation is twelve shift-and-compare steps. -/
def log2floor (n : ℕ) : ℕ :=
  log2step n (log2step n (log2step n (log2step n (log2step n (log2step n
    (log2step n (log2step n (log2step n (log2step n (log2step n
      (log2step n 0 2048) 1024) 512) 256) 128) 64) 32) 16) 8) 4) 2) 1

/-- Fuel-driven count of decimal digits of n (1 for n ≤ 9). -/
def ndigits10 : ℕ → ℕ → ℕ
  | 0, _ => 1
  | fuel + 1, n => if n ≤ 9 then 1 else ndigits10 fuel (n / 10) + 1

/-- Kernel-reducible negation on ℚ. -/
def qneg (a : ℚ) : ℚ := mkRat (-a.num) a.den

/-- Kernel-reducible addition on ℚ. -/
def qadd (a b : ℚ) : ℚ := mkRat (a.num * (b.den : ℤ) + b.num * (a.den : ℤ)) (a.den * b.den)

/-- Kernel-reducible subtraction on ℚ. -/
def qsub (a b : ℚ) : ℚ := qadd a (qneg b)

/-- Kernel-reducible multiplication on ℚ. -/
def qmul (a b : ℚ) : ℚ := mkRat (a.num * b.num) (a.den * b.den)

/-- Kernel-reducible division on ℚ (0 when the divisor is 0). -/
def qdiv (a b : ℚ) : ℚ :=
  mkRat (a.num * (b.den : ℤ) * (if b.num < 0 then -1 else 1)) (a.den * b.num.natAbs)

/-- Kernel-reducible absolute value on ℚ. -/
def qabs (a : ℚ) : ℚ := if a.num < 0 then qneg a else a

/-- Exact rational power of two with integer exponent. -/
def pow2 (e : ℤ) : ℚ :=
  if 0 ≤ e then ((2 ^ e.toNat : ℕ) : ℚ) else mkRat 1 (2 ^ (-e).toNat)

/-- Exact rational power of ten with integer exponent. -/
def pow10R (e : ℤ) : ℚ :=
  if 0 ≤ e then ((10 ^ e.toNat : ℕ) : ℚ) else mkRat 1 (10 ^ (-e).toNat)

/-- Floor of log2 of a positive rational. -/
def ilog2 (x : ℚ) : ℤ :=
  let e0 : ℤ := (log2floor x.num.natAbs : ℤ) - (log2floor x.den : ℤ)
  if x < pow2 e0 then e0 - 1 else if x < pow2 (e0 + 1) then e0 else e0 + 1

/-- Floor of log10 of a positive rational. -/
def ilog10 (x : ℚ) : ℤ :=
  let e0 : ℤ := (ndigits10 1300 x.num.natAbs : ℤ) - (ndigits10 1300 x.den : ℤ)
  if x < pow10R e0 then e0 - 1 else if x < pow10R (e0 + 1) then e0 else e0 + 1

/-- Floor of a rational, computed directly on the normalized fraction. -/
def rfloor (q : ℚ) : ℤ := Int.ediv q.num (q.den : ℤ)

/-- Ceiling of a rational. -/
def rceil (q : ℚ) : ℤ := -rfloor (qneg q)

/-- Truncation of a rational toward zero. -/
def rtrunc (q : ℚ) : ℤ := if q.num < 0 then -rfloor (qneg q) else rfloor q

/-- Round a rational to the nearest integer, ties to even. -/
def roundHalfEven (x : ℚ) : ℤ :=
  let f := rfloor x
  let r := qsub x ((f : ℤ) : ℚ)
  if r < mkRat 1 2 then f
  else if mkRat 1 2 < r then f + 1
  else if f % 2 = 0 then f else f + 1

/-- IEEE-754 binary64 rounding: nearest representable value, ties to even,
with gradual underflow (subnormal grid at 2^-1074). -/
def fl (q : ℚ) : ℚ :=
  if q = 0 then 0
  else
    let x := qabs q
    let g : ℤ := max (ilog2 x) (-1022) - 52
    let m : ℤ := roundHalfEven (qmul x (pow2 (-g)))
    if q.num < 0 then qneg (qmul ((m : ℤ) : ℚ) (pow2 g)) else qmul ((m : ℤ) : ℚ) (pow2 g)

/-- A rational is (the value of) a finite binary64 float iff rounding fixes it. -/
def FloatRep (q : ℚ) : Prop := fl q = q

/-- Wrap an integer into two's-complement int64 range, as Go arithmetic does. -/
def wrap64 (z : ℤ) : ℤ :=
  (z + 9223372036854775808) % 18446744073709551616 - 9223372036854775808

/-- Wrap an integer into two's-complement int32 range. -/
def wrap32 (z : ℤ) : ℤ := (z + 2147483648) % 4294967296 - 2147483648

/-- Go float64→int64 conversion: truncate toward zero; out of range the
behavior is implementation-specific and the amd64 result (MinInt64) is pinned. -/
def f2i64 (q : ℚ) : ℤ :=
  let t := rtrunc q
  if -9223372036854775808 ≤ t ∧ t ≤ 9223372036854775807 then t else -9223372036854775808

/-- Go float64→int32 conversion (amd64 out-of-range result MinInt32). -/
def f2i32 (q : ℚ) : ℤ :=
  let t := rtrunc q
  if -2147483648 ≤ t ∧ t ≤ 2147483647 then t else -2147483648

/-- Go int64→float64 (and int32→float64) conversion: round to nearest. -/
def i2f (z : ℤ) : ℚ := fl ((z : ℤ) : ℚ)

/-- Entry i of Go's math.pow10tab: the float64 literal 1e<i>. -/
def pow10tab (i : ℕ) : ℚ := fl (pow10R i)

/-- Entry j of Go's math.pow10postab32: the float64 literal 1e<32*j>. -/
def pow10postab32 (j : ℕ) : ℚ := fl (pow10R (32 * j))

/-- Go's math.Pow10.  For n in [0,308] it multiplies two table entries (one
float multiplication, hence one rounding); for n in [-323,-1] it divides 1 by
such a product; above 308 it returns +Inf, modelled as 2^1100 which the
int64 conversion treats the same way (out of range → MinInt64); below -323
it returns 0. -/
def mathPow10 (n : ℤ) : ℚ :=
  if 0 ≤ n ∧ n ≤ 308 then
    fl (qmul (pow10postab32 (n.toNat / 32)) (pow10tab (n.toNat % 32)))
  else if -323 ≤ n ∧ n < 0 then
    fl (qdiv 1 (fl (qmul (pow10postab32 ((-n).toNat / 32)) (pow10tab ((-n).toNat % 32)))))
  else if 308 < n then (2 : ℚ) ^ (1100 : ℕ)
  else 0

/-!
Shortest-decimal formatting.  `strconv.FormatFloat(v, _, -1, 64)` renders the
digit string with the fewest significant digits that parses back (by
round-to-nearest) to exactly v, choosing among equally short candidates the
one closest to v.  `sigCandidate q s` looks for such a representation with
exactly s significant digits: writing q = N * 10^k with an s-digit N, the only
possible N are ⌊q/10^k⌋ and ⌈q/10^k⌉; a candidate equal to 10^s is excluded
because that value has a shorter representation (found at a smaller s).
`shortestDec` returns (N, k) for the smallest viable s (every binary64 value
round-trips within 17 significant digits).
-/

/-- One round-trip candidate check: does the decimal N*10^k parse back to q? -/
def parsesBackTo (N : ℤ) (k : ℤ) (q : ℚ) : Bool :=
  fl (qmul ((N : ℤ) : ℚ) (pow10R k)) == q

/-- Try to represent q (> 0) with exactly s significant decimal digits. -/
def sigCandidate (q : ℚ) (s : ℕ) : Option (ℤ × ℤ) :=
  let k : ℤ := ilog10 q - s + 1
  let x : ℚ := qdiv q (pow10R k)
  let lo : ℤ := rfloor x
  let hi : ℤ := lo + 1
  let okLo : Bool := parsesBackTo lo k q
  let okHi : Bool := (hi ≠ (10 : ℤ) ^ s) && parsesBackTo hi k q
  if okLo && okHi then
    let dLo := qsub x ((lo : ℤ) : ℚ)
    let dHi := qsub ((hi : ℤ) : ℚ) x
    if dLo < dHi then some (lo, k)
    else if dHi < dLo then some (hi, k)
    else if lo % 2 = 0 then some (lo, k) else some (hi, k)
  else if okLo then some (lo, k)
  else if okHi then some (hi, k)
  else none

/-- Shortest decimal representation (N, k) of a representable q > 0, with
value N*10^k and N carrying the minimal number of significant digits. -/
def shortestDec (q : ℚ) : Option (ℤ × ℤ) :=
  (List.range 18).findSome? fun s => if s = 0 then none else sigCandidate q s

/-- numDecPlaces (src/main.go): digits after the decimal point of
strconv.FormatFloat(v, 'f', -1, 64).  In 'f' format the shortest digits
N*10^k print with max(0, -k) fractional digits. -/
def numDecPlaces (v : ℚ) : ℕ :=
  if v = 0 then 0
  else
    match shortestDec (qabs v) with
    | some (_, k) => (max 0 (-k)).toNat
    | none => 0

/-- Split a character list at every occurrence of `sep`: the behavior of
Go's strings.Split for a one-character separator (always at least one
fragment; a leading/trailing separator yields an empty fragment).  Written
structurally so the kernel can evaluate it (core String.splitOn is
well-founded recursion, which does not reduce). -/
def splitChar (sep : Char) : List Char → List (List Char)
  | [] => [[]]
  | c :: rest =>
    if c = sep then [] :: splitChar sep rest
    else
      match splitChar sep rest with
      | [] => [[c]]
      | h :: t => (c :: h) :: t

/-- Go strconv fmtE (%E form used by 'G'): first digit, '.', remaining digits
(no point when a single digit), then 'E', explicit sign, exponent of at
least two digits. -/
def fmtE (ds : List Char) (exp : ℤ) : List Char :=
  let mant : List Char :=
    match ds with
    | [] => []
    | [c] => [c]
    | c :: rest => c :: '.' :: rest
  let es := Nat.toDigits 10 exp.natAbs
  let es := if es.length < 2 then '0' :: es else es
  mant ++ ['E'] ++ [if 0 ≤ exp then '+' else '-'] ++ es

/-- Go strconv fmtF (%f form used by 'G' with shortest digits): integer part
is the first min(nd,dp) digits zero-padded to dp (or "0" when dp ≤ 0); the
fractional part prints digits dp..nd with '0' outside that window. -/
def fmtF (ds : List Char) (dp : ℤ) : List Char :=
  let nd : ℤ := ds.length
  let intPart : List Char :=
    if 0 < dp then ds.take (min nd dp).toNat ++ List.replicate (dp - nd).toNat '0'
    else ['0']
  let prec : ℤ := max (nd - dp) 0
  if 0 < prec then
    intPart ++ ['.'] ++ ((List.range prec.toNat).map fun i =>
      let j : ℤ := dp + i
      if j < 0 then '0' else ds.getD j.toNat '0')
  else intPart

/-- strconv.FormatFloat(v, 'G', -1, 64) as a character list: shortest
digits; exponent form when the decimal exponent is < -4 or ≥ 6 (eprec is 6
in shortest mode), fixed form otherwise. -/
def formatGChars (v : ℚ) : List Char :=
  if v = 0 then ['0']
  else
    let sign : List Char := if v.num < 0 then ['-'] else []
    match shortestDec (qabs v) with
    | none => []
    | some (N, k) =>
      let ds : List Char := Nat.toDigits 10 N.natAbs
      let nd : ℤ := ds.length
      let dp : ℤ := k + nd
      let exp : ℤ := dp - 1
      if exp < -4 ∨ 6 ≤ exp then sign ++ fmtE ds exp else sign ++ fmtF ds dp

/-- strconv.FormatFloat(v, 'G', -1, 64) as a String. -/
def formatG (v : ℚ) : String := String.mk (formatGChars v)

/-- Numeric value of a string of decimal digits. -/
def digitsVal (cs : List Char) : ℕ := cs.foldl (fun a c => 10 * a + (c.toNat - 48)) 0

/-- Exponent part of a parsed float string ("+10", "-05", "10"). -/
def parseExpPart (e : List Char) : ℤ :=
  match e with
  | '+' :: ds => (digitsVal ds : ℤ)
  | '-' :: ds => -(digitsVal ds : ℤ)
  | ds => (digitsVal ds : ℤ)

/-- strconv.ParseFloat on the decimal strings DivideBy100 constructs
("[digits].digits[E±dd]"): the exact rational value of the text, rounded to
the nearest float64. -/
def parseGoFloat (s : List Char) : ℚ :=
  let me : List Char × ℤ :=
    match splitChar 'E' s with
    | [m] => (m, 0)
    | m :: e :: _ => (m, parseExpPart e)
    | [] => ([], 0)
  let ipfp : List Char × List Char :=
    match splitChar '.' me.1 with
    | [a] => (a, [])
    | a :: b :: _ => (a, b)
    | [] => ([], [])
  fl (qmul ((digitsVal (ipfp.1 ++ ipfp.2) : ℕ) : ℚ)
      (pow10R (me.2 - ipfp.2.length)))

/-- DivideBy100 (src/main.go): format v with 'G', split on '.', move the last
two integer-part digits (zero-padded to two) to the front of the fractional
part, and re-parse.  Go indexes vs[1] unconditionally; when the rendering has
no '.' that access panics, modelled as `none`. -/
def DivideBy100 (v : ℚ) : Option ℚ :=
  match splitChar '.' (formatGChars v) with
  | before :: after :: _ =>
    let beforeDecimal :=
      if before.length = 0 then ['0', '0']
      else if before.length = 1 then '0' :: before
      else before
    let sb : List Char :=
      (if 2 < beforeDecimal.length then beforeDecimal.take (beforeDecimal.length - 2) else [])
        ++ ['.'] ++ beforeDecimal.drop (beforeDecimal.length - 2) ++ after
    some (parseGoFloat sb)
  | _ => none

/-! The Money value model.  A Go `*Money` is an `Option Money`; the getters
default the absent value to zero fields exactly as the source's nil-tolerant
accessors do.  `Units` carries the int64 field, `Nanos` the int32 field. -/

structure Money where
  Units : ℤ
  Nanos : ℤ
  CurrencyCode : String
deriving DecidableEq

/-- GetCurrencyCode (src/main.go): field when non-nil, "" otherwise. -/
def GetCurrencyCode : Option Money → String
  | some m => m.CurrencyCode
  | none => ""

/-- GetUnits (src/main.go): field when non-nil, 0 otherwise. -/
def GetUnits : Option Money → ℤ
  | some m => m.Units
  | none => 0

/-- GetNanos (src/main.go): field when non-nil, 0 otherwise. -/
def GetNanos : Option Money → ℤ
  | some m => m.Nanos
  | none => 0

/-- IsGreaterThan (src/main.go). -/
def IsGreaterThan (a b : Option Money) : Bool :=
  match a with
  | none => false
  | some a' =>
    match b with
    | none => true
    | some b' =>
      if a'.Units > b'.Units then true
      else if a'.Units < b'.Units then false
      else a'.Nanos > b'.Nanos

/-- signMatches (src/main.go): units and nanos signs agree unless one is zero. -/
def signMatches (m : Option Money) : Bool :=
  GetNanos m == 0 || GetUnits m == 0 || (decide (GetNanos m < 0) == decide (GetUnits m < 0))

/-- validNanos (src/main.go): nanos within [-999999999, 999999999]. -/
def validNanos (nanos : ℤ) : Bool :=
  decide (-999999999 ≤ nanos) && decide (nanos ≤ 999999999)

/-- IsValid (src/main.go). -/
def IsValid (m : Option Money) : Bool := signMatches m && validNanos (GetNanos m)

/-- IsPositive (src/main.go).  Faithful to Go operator precedence: && binds
tighter than ||, so this is (IsValid && units>0) || (units==0 && nanos>0). -/
def IsPositive (m : Option Money) : Bool :=
  IsValid m && decide (GetUnits m > 0) || (GetUnits m == 0 && decide (GetNanos m > 0))

/-- IsZero (src/main.go). -/
def IsZero (m : Option Money) : Bool := GetUnits m == 0 && GetNanos m == 0

/-- The nanos field fromInt computes for a given remainder: `float64(rem)`
(rounded int64→float64 conversion) times the float quotient
Pow10(9)/float64(multiplier), truncated through the int32 conversion. -/
def nanosOfRem (rem currencyMultiplier : ℤ) : ℤ :=
  f2i32 (fl (qmul (i2f rem) (fl (qdiv (mathPow10 9) (i2f currencyMultiplier)))))

/-- fromInt (src/main.go): integer amount in 1/multiplier units to Money.
Zero maps to zero Money directly; otherwise units is the truncating int64
quotient and nanos is the float-rescaled remainder `amount % multiplier`. -/
def fromInt (amount currencyMultiplier : ℤ) (currencyCode : String) : Money :=
  if amount = 0 then
    ⟨0, 0, currencyCode⟩
  else
    ⟨Int.tdiv amount currencyMultiplier,
     nanosOfRem (Int.tmod amount currencyMultiplier) currencyMultiplier,
     currencyCode⟩

/-- The nanosAdjusted term of asInt: 0 for zero nanos, otherwise
float64(nanos) * Pow10(-9) * float64(multiplier) (two float multiplications,
left-associated), truncated to int64. -/
def asIntAdj (nanos currencyMultiplier : ℤ) : ℤ :=
  if nanos = 0 then 0
  else f2i64 (fl (qmul (fl (qmul (i2f nanos) (mathPow10 (-9)))) (i2f currencyMultiplier)))

/-- asInt (src/main.go): Money to integer amount; nil maps to 0.  The final
units*multiplier + nanosAdjusted sum is int64 arithmetic, hence wraps. -/
def asInt (money : Option Money) (currencyMultiplier : ℤ) : ℤ :=
  match money with
  | none => 0
  | some m =>
    wrap64 (wrap64 (m.Units * currencyMultiplier) + asIntAdj m.Nanos currencyMultiplier)

/-- FromInt64 (src/main.go). -/
def FromInt64 (amount currencyMultiplier : ℤ) (currencyCode : String) : Money :=
  fromInt amount currencyMultiplier currencyCode

/-- FromInt32 (src/main.go): same conversion after widening int32 arguments. -/
def FromInt32 (amount currencyMultiplier : ℤ) (currencyCode : String) : Money :=
  fromInt amount currencyMultiplier currencyCode

/-- AsInt64 (src/main.go). -/
def AsInt64 (money : Option Money) (currencyMultiplier : ℤ) : ℤ :=
  asInt money currencyMultiplier

/-- AsInt32 (src/main.go): truncating narrowing of the int64 result. -/
def AsInt32 (money : Option Money) (currencyMultiplier : ℤ) : ℤ :=
  wrap32 (asInt money currencyMultiplier)

/-- The two error sentinels multiplication can return. -/
inductive GoErr where
  | invalidMultiplier
  | invalidValue
deriving DecidableEq

instance : DecidableEq (Except GoErr Money) := fun a b =>
  match a, b with
  | .ok x, .ok y => if h : x = y then .isTrue (by rw [h]) else .isFalse (by simp [h])
  | .error x, .error y => if h : x = y then .isTrue (by rw [h]) else .isFalse (by simp [h])
  | .ok _, .error _ => .isFalse (by simp)
  | .error _, .ok _ => .isFalse (by simp)

/-- The decimal-multiplier decomposition block shared verbatim by Mulv2,
MulNew and Mul (src/main.go): math.Modf splits r exactly; decMul truncates
the float product decMulF*float64(powerOf10); the correction step recomputes
float64(decMul)/float64(powerOf10) and increments decMul when the recomputed
value is strictly below decMulF and percentageChange reaches `threshold` —
the literal 0.01 in Mulv2 and 1 in MulNew/Mul.  Returns (intMul, decMul). -/
def mulDecompose (threshold : ℚ) (powerOf10 : ℤ) (r : ℚ) : ℤ × ℤ :=
  let intMulF : ℚ := ((rtrunc r : ℤ) : ℚ)
  let decMulF : ℚ := qsub r intMulF
  let intMul : ℤ := f2i64 intMulF
  let decMul : ℤ := f2i64 (fl (qmul decMulF (i2f powerOf10)))
  let newDecMulF : ℚ := fl (qdiv (i2f decMul) (i2f powerOf10))
  if newDecMulF < decMulF then
    let percentageChange : ℚ :=
      fl (qmul (fl (qdiv (fl (qsub decMulF newDecMulF)) decMulF)) 100)
    if threshold ≤ percentageChange then (intMul, wrap64 (decMul + 1)) else (intMul, decMul)
  else (intMul, decMul)

/-- The percentageChange value the correction step of the decomposition
compares against its threshold (0 when the correction is not reached because
newDecMulF is not below decMulF). -/
def decompPercentageChange (powerOf10 : ℤ) (r : ℚ) : ℚ :=
  let decMulF : ℚ := qsub r ((rtrunc r : ℤ) : ℚ)
  let decMul : ℤ := f2i64 (fl (qmul decMulF (i2f powerOf10)))
  let newDecMulF : ℚ := fl (qdiv (i2f decMul) (i2f powerOf10))
  if newDecMulF < decMulF then
    fl (qmul (fl (qdiv (fl (qsub decMulF newDecMulF)) decMulF)) 100)
  else 0

/-- The truncated (pre-correction) fractional numerator of the decomposition. -/
def decompTruncDecMul (powerOf10 : ℤ) (r : ℚ) : ℤ :=
  f2i64 (fl (qmul (qsub r ((rtrunc r : ℤ) : ℚ)) (i2f powerOf10)))

/-- The arithmetic body of Mulv2 (src/main.go, after the guards): the
nanos-fraction cross term goes through a float intermediate and is rounded
half-up via the explicit delta > 0.5 test. -/
def Mulv2Core (l : Option Money) (r : ℚ) : Money :=
  let powerOf10 : ℤ := f2i64 (mathPow10 (numDecPlaces r))
  let im := mulDecompose (fl (mkRat 1 100)) powerOf10 r
  let intMul : ℤ := im.1
  let decMul : ℤ := im.2
  let nanosMultiplied : ℤ := wrap64 (GetNanos l * intMul)
  let nanosMultiplied : ℤ :=
    if decMul ≠ 0 then
      let nanosMulF : ℚ := fl (qmul (i2f (GetNanos l)) (fl (qdiv (i2f decMul) (i2f powerOf10))))
      let nanosMul : ℤ := f2i64 nanosMulF
      let nanosMulDelta : ℚ := fl (qsub nanosMulF (i2f nanosMul))
      let nanosMul : ℤ := if mkRat 1 2 < nanosMulDelta then wrap64 (nanosMul + 1) else nanosMul
      wrap64 (nanosMultiplied + nanosMul)
    else nanosMultiplied
  let intUnitsMultiplied : ℤ := wrap64 (GetUnits l * intMul)
  let iudu : ℤ × ℤ :=
    if decMul ≠ 0 then
      (wrap64 (intUnitsMultiplied +
         f2i64 (fl (qdiv (i2f (wrap64 (GetUnits l * decMul))) (i2f powerOf10)))),
       Int.tmod (wrap64 (GetUnits l * decMul)) powerOf10)
    else (intUnitsMultiplied, 0)
  let nanosDecUnitAdjusted : ℤ :=
    f2i64 (fl (qdiv (fl (qmul (i2f iudu.2) (mathPow10 9))) (i2f powerOf10)))
  let units : ℤ := iudu.1
  let nanos : ℤ := wrap64 (nanosDecUnitAdjusted + nanosMultiplied)
  let un : ℤ × ℤ :=
    if (0 ≤ units ∧ 0 ≤ nanos) ∨ (units < 0 ∧ nanos ≤ 0) then
      (wrap64 (units + Int.tdiv nanos 1000000000), Int.tmod nanos 1000000000)
    else if 0 < units then (wrap64 (units - 1), wrap64 (nanos + 1000000000))
    else if units < 0 then (wrap64 (units + 1), wrap64 (nanos - 1000000000))
    else (units, nanos)
  ⟨un.1, wrap32 un.2, GetCurrencyCode l⟩

/-- Mulv2 (src/main.go).  The `none` result models the nil-pointer
dereference panic: the zero short-circuit branch reads l.CurrencyCode
directly (not through the nil-safe getter), which faults on a nil operand. -/
def Mulv2 (l : Option Money) (r : ℚ) : Option (Except GoErr Money) :=
  if r < 0 then some (.error .invalidMultiplier)
  else if !IsValid l then some (.error .invalidValue)
  else if IsZero l || r == 0 then
    match l with
    | none => none
    | some m => some (.ok ⟨0, 0, m.CurrencyCode⟩)
  else some (.ok (Mulv2Core l r))

/-- The arithmetic body of MulNew (src/main.go, after the guards): identical
to Mulv2Core except that the nanos-fraction float intermediate is truncated
(no half-up correction) and the correction threshold is 1. -/
def MulNewCore (l : Option Money) (r : ℚ) : Money :=
  let powerOf10 : ℤ := f2i64 (mathPow10 (numDecPlaces r))
  let im := mulDecompose 1 powerOf10 r
  let intMul : ℤ := im.1
  let decMul : ℤ := im.2
  let nanosMultiplied : ℤ := wrap64 (GetNanos l * intMul)
  let nanosMultiplied : ℤ :=
    if decMul ≠ 0 then
      wrap64 (nanosMultiplied +
        f2i64 (fl (qmul (i2f (GetNanos l)) (fl (qdiv (i2f decMul) (i2f powerOf10))))))
    else nanosMultiplied
  let intUnitsMultiplied : ℤ := wrap64 (GetUnits l * intMul)
  let iudu : ℤ × ℤ :=
    if decMul ≠ 0 then
      (wrap64 (intUnitsMultiplied +
         f2i64 (fl (qdiv (i2f (wrap64 (GetUnits l * decMul))) (i2f powerOf10)))),
       Int.tmod (wrap64 (GetUnits l * decMul)) powerOf10)
    else (intUnitsMultiplied, 0)
  let nanosDecUnitAdjusted : ℤ :=
    f2i64 (fl (qdiv (fl (qmul (i2f iudu.2) (mathPow10 9))) (i2f powerOf10)))
  let units : ℤ := iudu.1
  let nanos : ℤ := wrap64 (nanosDecUnitAdjusted + nanosMultiplied)
  let un : ℤ × ℤ :=
    if (0 ≤ units ∧ 0 ≤ nanos) ∨ (units < 0 ∧ nanos ≤ 0) then
      (wrap64 (units + Int.tdiv nanos 1000000000), Int.tmod nanos 1000000000)
    else if 0 < units then (wrap64 (units - 1), wrap64 (nanos + 1000000000))
    else if units < 0 then (wrap64 (units + 1), wrap64 (nanos - 1000000000))
    else (units, nanos)
  ⟨un.1, wrap32 un.2, GetCurrencyCode l⟩

/-- MulNew (src/main.go): same guard structure as Mulv2 (including the
nil-pointer fault in the zero branch). -/
def MulNew (l : Option Money) (r : ℚ) : Option (Except GoErr Money) :=
  if r < 0 then some (.error .invalidMultiplier)
  else if !IsValid l then some (.error .invalidValue)
  else if IsZero l || r == 0 then
    match l with
    | none => none
    | some m => some (.ok ⟨0, 0, m.CurrencyCode⟩)
  else some (.ok (MulNewCore l r))

/-- The arithmetic body of Mul (src/main.go, after the guards): powerOf10 is
an int32; the nanos-fraction cross term is pure int64 arithmetic
nanos*decMul/powerOf10; nanosDecUnitAdjusted multiplies by the pre-truncated
int64(Pow10(9)/float64(powerOf10)). -/
def MulCore (l : Option Money) (r : ℚ) : Money :=
  let powerOf10 : ℤ := f2i32 (mathPow10 (numDecPlaces r))
  let im := mulDecompose 1 powerOf10 r
  let intMul : ℤ := im.1
  let decMul : ℤ := im.2
  let nanosMultiplied : ℤ := wrap64 (GetNanos l * intMul)
  let nanosMultiplied : ℤ :=
    if decMul ≠ 0 then
      wrap64 (nanosMultiplied + Int.tdiv (wrap64 (GetNanos l * decMul)) powerOf10)
    else nanosMultiplied
  let intUnitsMultiplied : ℤ := wrap64 (GetUnits l * intMul)
  let iudu : ℤ × ℤ :=
    if decMul ≠ 0 then
      (wrap64 (intUnitsMultiplied +
         f2i64 (fl (qdiv (i2f (wrap64 (GetUnits l * decMul))) (i2f powerOf10)))),
       Int.tmod (wrap64 (GetUnits l * decMul)) powerOf10)
    else (intUnitsMultiplied, 0)
  let nanosDecUnitAdjusted : ℤ :=
    wrap64 (iudu.2 * f2i64 (fl (qdiv (mathPow10 9) (i2f powerOf10))))
  let units : ℤ := iudu.1
  let nanos : ℤ := wrap64 (nanosDecUnitAdjusted + nanosMultiplied)
  let un : ℤ × ℤ :=
    if (0 ≤ units ∧ 0 ≤ nanos) ∨ (units < 0 ∧ nanos ≤ 0) then
      (wrap64 (units + Int.tdiv nanos 1000000000), Int.tmod nanos 1000000000)
    else if 0 < units then (wrap64 (units - 1), wrap64 (nanos + 1000000000))
    else if units < 0 then (wrap64 (units + 1), wrap64 (nanos - 1000000000))
    else (units, nanos)
  ⟨un.1, wrap32 un.2, GetCurrencyCode l⟩

/-- Mul (src/main.go): same guard structure as Mulv2 and MulNew. -/
def Mul (l : Option Money) (r : ℚ) : Option (Except GoErr Money) :=
  if r < 0 then some (.error .invalidMultiplier)
  else if !IsValid l then some (.error .invalidValue)
  else if IsZero l || r == 0 then
    match l with
    | none => none
    | some m => some (.ok ⟨0, 0, m.CurrencyCode⟩)
  else some (.ok (MulCore l r))

/-- Error-outcome projection of a multiplication result: the fault (none),
the error returned (some (some e)), or success (some none). -/
def errPart : Option (Except GoErr Money) → Option (Option GoErr)
  | none => none
  | some (.error e) => some (some e)
  | some (.ok _) => some none

/-! Pre-evaluated Pow10 constants.  `mathPow10 9` is exactly 10^9, and
`mathPow10 (-9)` is the float64 nearest 10^-9; the equalities are proved
below (`mathPow10_nine`, `mathPow10_neg_nine`) and let the conversion
round-trip table avoid re-evaluating the Pow10 table in every instance. -/

/-- The value of Go's math.Pow10(9): exactly 10^9. -/
def pow10nine : ℚ := 1000000000

/-- The value of Go's math.Pow10(-9): the float64 nearest 10^-9. -/
def pow10negnine : ℚ := mkRat 4835703278458517 4835703278458516698824704

/-- nanosOfRem with math.Pow10(9) replaced by its value (same function:
see `nanosOfRem_eq_fast`). -/
def nanosOfRemFast (rem currencyMultiplier : ℤ) : ℤ :=
  f2i32 (fl (qmul (i2f rem) (fl (qdiv pow10nine (i2f currencyMultiplier)))))

/-- asIntAdj with math.Pow10(-9) replaced by its value (same function:
see `asIntAdj_eq_fast`). -/
def asIntAdjFast (nanos currencyMultiplier : ℤ) : ℤ :=
  if nanos = 0 then 0
  else f2i64 (fl (qmul (fl (qmul (i2f nanos) pow10negnine)) (i2f currencyMultiplier)))

/-! Helper lemmas. -/

theorem wrap64_eq_self {z : ℤ} (h1 : -(2 ^ 63) ≤ z) (h2 : z < 2 ^ 63) : wrap64 z = z := by
  unfold wrap64
  have he : (2 : ℤ) ^ 63 = 9223372036854775808 := by norm_num
  rw [he] at h1 h2
  have h3 : 0 ≤ z + 9223372036854775808 := by linarith
  have h4 : z + 9223372036854775808 < 18446744073709551616 := by linarith
  rw [Int.emod_eq_of_lt h3 h4]
  ring

theorem tmod_neg_dividend (a b : ℤ) : Int.tmod (-a) b = -Int.tmod a b := by
  rw [Int.tmod_def, Int.tmod_def, Int.neg_tdiv]
  ring

/-! Theorems for the claims. -/

set_option maxRecDepth 100000 in
/-- C1 helper: the Mulv2 evaluation at the failing input. -/
theorem mulv2_invariant_failure_eval :
    Mulv2 (some ⟨0, -1, ""⟩) 1500000000 = some (.ok ⟨0, -1500000000, ""⟩) := by decide

/-- C1 continued: the returned value fails IsValid. -/
theorem mulv2_invariant_failure_invalid :
    IsValid (some ⟨0, -1500000000, ""⟩) = false := by decide

/-- C1 (code bug witness): `Mulv2` succeeds on the valid operand
{units 0, nanos -1} with the integral rate 1500000000, returning
{units 0, nanos -1500000000}, which violates the nanos-range invariant —
the normalization step has no branch for units = 0 with out-of-range
negative nanos, contradicting the source's own "guaranteed to not to go
over the limit" comment and the spec's normalization invariant. -/
theorem mulv2_normalization_invariant_failure :
    Mulv2 (some ⟨0, -1, ""⟩) 1500000000 = some (.ok ⟨0, -1500000000, ""⟩) ∧
    IsValid (some ⟨0, -1500000000, ""⟩) = false :=
  ⟨mulv2_invariant_failure_eval, mulv2_invariant_failure_invalid⟩

/-- C2 (counterexample): for the invalid operand {units 5, nanos -3e8} and
the negative multiplier -1, Mulv2 fails with InvalidMultiplier, not
InvalidValue — the negative-multiplier check precedes the validity check,
so the InvalidValue rejection does not hold for negative r. -/
theorem mulv2_invalid_operand_negative_multiplier_cex :
    IsValid (some ⟨5, -300000000, ""⟩) = false ∧
    Mulv2 (some ⟨5, -300000000, ""⟩) (-1) = some (.error .invalidMultiplier) ∧
    GoErr.invalidMultiplier ≠ GoErr.invalidValue := by decide

/-- C2 (amended): for every money value violating the validity invariant
and every non-negative multiplier, Mulv2 fails with InvalidValue. -/
theorem mulv2_invalid_operand_rejection (m : Option Money) (r : ℚ) (hr : 0 ≤ r)
    (hm : IsValid m = false) : Mulv2 m r = some (.error .invalidValue) := by
  unfold Mulv2
  rw [if_neg (not_lt.mpr hr), hm]
  rfl

theorem mulv2_invalid_operand_rejection_witness :
    ((0 : ℚ) ≤ 2 ∧ IsValid (some ⟨5, -300000000, ""⟩) = false) ∧
    Mulv2 (some ⟨5, -300000000, ""⟩) 2 = some (.error .invalidValue) :=
  ⟨⟨by decide, by decide⟩,
   mulv2_invalid_operand_rejection (some ⟨5, -300000000, ""⟩) 2 (by decide) (by decide)⟩

set_option maxRecDepth 100000 in
/-- C3 helper: 15.11 shifts to 0.1511. -/
theorem divideBy100_at_1511 :
    DivideBy100 (fl (mkRat 1511 100)) = some (fl (mkRat 1511 10000)) := by decide

set_option maxRecDepth 100000 in
/-- C3 continued: 999.9 shifts to 9.999. -/
theorem divideBy100_at_9999 :
    DivideBy100 (fl (mkRat 9999 10)) = some (fl (mkRat 9999 1000)) := by decide

set_option maxRecDepth 100000 in
/-- C3 continued: 99999999999 (rendered in exponent form) shifts to
999999999.99. -/
theorem divideBy100_at_1e11 :
    DivideBy100 (99999999999 : ℚ) = some (fl (mkRat 99999999999 100)) := by decide

/-- C3: DivideBy100 shifts the decimal point two places left exactly on the
three pinned inputs: 15.11 ↦ 0.1511, 999.9 ↦ 9.999, 99999999999 ↦
999999999.99 (each float named by its exact rational value). -/
theorem divideBy100_decimal_shift_exactness :
    DivideBy100 (fl (mkRat 1511 100)) = some (fl (mkRat 1511 10000)) ∧
    DivideBy100 (fl (mkRat 9999 10)) = some (fl (mkRat 9999 1000)) ∧
    DivideBy100 (99999999999 : ℚ) = some (fl (mkRat 99999999999 100)) :=
  ⟨divideBy100_at_1511, divideBy100_at_9999, divideBy100_at_1e11⟩

set_option maxRecDepth 100000 in
/-- C4 helper: the scale computed for rate 0.0113 is 10000. -/
theorem decomp0113_scale :
    f2i64 (mathPow10 (numDecPlaces (fl (mkRat 113 10000)))) = 10000 := by decide

set_option maxRecDepth 100000 in
/-- C4 helper: the float product truncates to 112 at rate 0.0113. -/
theorem decomp0113_trunc :
    decompTruncDecMul 10000 (fl (mkRat 113 10000)) = 112 := by decide

set_option maxRecDepth 100000 in
/-- C4 helper: Mulv2's decomposition corrects 112 to 113 at rate 0.0113. -/
theorem decomp0113_corrected :
    mulDecompose (fl (mkRat 1 100)) 10000 (fl (mkRat 113 10000)) = (0, 113) := by decide

set_option maxRecDepth 100000 in
/-- C4 helper: the percentage deviation at rate 0.0113 is below 1. -/
theorem decomp0113_pc_below_one :
    decompPercentageChange 10000 (fl (mkRat 113 10000)) < 1 := by decide

/-- C4 (counterexample): at the rate 0.0113 (4 decimal places, scale 10000)
the float product truncates to 112 and the relative deviation is about
0.88%, strictly below 1% — yet Mulv2's correction fires (its literal
threshold is percentageChange ≥ 0.01, i.e. deviation ≥ 0.01%), yielding
113.  This refutes "increments exactly when the deviation is at least 1%"
for the multiply operation. -/
theorem mulv2_correction_below_one_percent_cex :
    f2i64 (mathPow10 (numDecPlaces (fl (mkRat 113 10000)))) = 10000 ∧
    decompTruncDecMul 10000 (fl (mkRat 113 10000)) = 112 ∧
    mulDecompose (fl (mkRat 1 100)) 10000 (fl (mkRat 113 10000)) = (0, 113) ∧
    decompPercentageChange 10000 (fl (mkRat 113 10000)) < 1 :=
  ⟨decomp0113_scale, decomp0113_trunc, decomp0113_corrected, decomp0113_pc_below_one⟩

set_option maxRecDepth 100000 in
/-- C4 helper: the scale computed for rate 0.29 is 100. -/
theorem decomp029_scale :
    f2i64 (mathPow10 (numDecPlaces (fl (mkRat 29 100)))) = 100 := by decide

set_option maxRecDepth 100000 in
/-- C4 helper: the float product truncates 0.29*100 to 28. -/
theorem decomp029_trunc :
    decompTruncDecMul 100 (fl (mkRat 29 100)) = 28 := by decide

set_option maxRecDepth 100000 in
/-- C4 helper: Mulv2's decomposition of 0.29 yields (0, 29). -/
theorem decomp029_corrected :
    mulDecompose (fl (mkRat 1 100)) 100 (fl (mkRat 29 100)) = (0, 29) := by decide

set_option maxRecDepth 100000 in
/-- C4 helper: the deviation at rate 0.0113 clears Mulv2's 0.01 literal. -/
theorem decomp0113_pc_above_threshold :
    fl (mkRat 1 100) ≤ decompPercentageChange 10000 (fl (mkRat 113 10000)) := by decide

set_option maxRecDepth 100000 in
/-- C4 helper: at rate 0.0113 the corrected numerator is the truncation
plus one. -/
theorem decomp0113_increment :
    (mulDecompose (fl (mkRat 1 100)) 10000 (fl (mkRat 113 10000))).2 =
      decompTruncDecMul 10000 (fl (mkRat 113 10000)) + 1 := by decide

/-- C4 (amended): decomposing 0.29 inside Mulv2 yields integer part 0,
scale 100 and corrected numerator 29 (truncation gives 28); Mulv2's
correction threshold is the literal 0.01 on percentageChange — deviation
at least 0.01%, not 1% — as the 0.0113 decomposition (deviation ≈ 0.88%,
still corrected) exhibits. -/
theorem mulv2_decomposition_correction :
    f2i64 (mathPow10 (numDecPlaces (fl (mkRat 29 100)))) = 100 ∧
    decompTruncDecMul 100 (fl (mkRat 29 100)) = 28 ∧
    mulDecompose (fl (mkRat 1 100)) 100 (fl (mkRat 29 100)) = (0, 29) ∧
    fl (mkRat 1 100) ≤ decompPercentageChange 10000 (fl (mkRat 113 10000)) ∧
    decompPercentageChange 10000 (fl (mkRat 113 10000)) < 1 ∧
    (mulDecompose (fl (mkRat 1 100)) 10000 (fl (mkRat 113 10000))).2 =
      decompTruncDecMul 10000 (fl (mkRat 113 10000)) + 1 :=
  ⟨decomp029_scale, decomp029_trunc, decomp029_corrected,
   decomp0113_pc_above_threshold, decomp0113_pc_below_one, decomp0113_increment⟩

/-- C5: multiplying the zero Money by any non-negative rate returns the zero
Money, and multiplying any valid Money by rate 0 returns the zero Money, in
both cases carrying the operand's currency code. -/
theorem mulv2_zero_absorbing (m : Money) (cc : String) (r : ℚ) (hr : 0 ≤ r)
    (hm : IsValid (some m) = true) :
    Mulv2 (some ⟨0, 0, cc⟩) r = some (.ok ⟨0, 0, cc⟩) ∧
    Mulv2 (some m) 0 = some (.ok ⟨0, 0, m.CurrencyCode⟩) := by
  constructor
  · unfold Mulv2
    rw [if_neg (not_lt.mpr hr)]
    simp [IsValid, IsZero, signMatches, validNanos, GetUnits, GetNanos]
  · unfold Mulv2
    rw [hm]
    simp

theorem mulv2_zero_absorbing_witness :
    ((0 : ℚ) ≤ 2 ∧ IsValid (some ⟨3, 250000000, "USD"⟩) = true) ∧
    (Mulv2 (some ⟨0, 0, "USD"⟩) 2 = some (.ok ⟨0, 0, "USD"⟩) ∧
     Mulv2 (some ⟨3, 250000000, "USD"⟩) 0 = some (.ok ⟨0, 0, "USD"⟩)) :=
  ⟨⟨by decide, by decide⟩,
   mulv2_zero_absorbing ⟨3, 250000000, "USD"⟩ "USD" 2 (by decide) (by decide)⟩

/-- C6 (code bug witness): with units 0 and nanos 1500000000 (out of the
legal nanos range, hence invalid), IsPositive still returns true: Go's &&
binds tighter than ||, so the validity conjunct guards only the units > 0
disjunct, contradicting the doc comment "valid and is positive". -/
theorem isPositive_accepts_invalid_value :
    IsPositive (some ⟨0, 1500000000, ""⟩) = true ∧
    IsValid (some ⟨0, 1500000000, ""⟩) = false := by decide

set_option maxRecDepth 100000 in
/-- C7 helper: the exactness condition holds at amount 29, multiplier 58. -/
theorem roundtrip_at_29_58_exact :
    (Int.tmod 29 58 * 1000000000) % 58 = 0 := by decide

set_option maxRecDepth 100000 in
/-- C7 helper: fromInt truncates the rescaled remainder to 499999999. -/
theorem fromInt64_at_29_58 :
    FromInt64 29 58 "X" = ⟨0, 499999999, "X"⟩ := by decide

set_option maxRecDepth 100000 in
/-- C7 helper: the round trip lands on 28. -/
theorem asInt64_at_29_58 :
    AsInt64 (some (FromInt64 29 58 "X")) 58 = 28 := by decide

/-- C7 (counterexample): amount 29 with multiplier 58 meets the exactness
condition (the rescaled remainder 29*10^9/58 = 500000000 is an integer),
yet the round trip returns 28, not 29: fromInt computes the float product
29.0*(1e9/58.0) = 499999999.99999994 and truncates it to 499999999 nanos. -/
theorem roundtrip_failure_cex :
    (Int.tmod 29 58 * 1000000000) % 58 = 0 ∧
    FromInt64 29 58 "X" = ⟨0, 499999999, "X"⟩ ∧
    AsInt64 (some (FromInt64 29 58 "X")) 58 = 28 ∧ (28 : ℤ) ≠ 29 :=
  ⟨roundtrip_at_29_58_exact, fromInt64_at_29_58, asInt64_at_29_58, by decide⟩

set_option maxRecDepth 100000 in
theorem mathPow10_nine : mathPow10 9 = pow10nine := by decide

set_option maxRecDepth 100000 in
theorem mathPow10_neg_nine : mathPow10 (-9) = pow10negnine := by decide

theorem nanosOfRem_eq_fast (rem M : ℤ) : nanosOfRem rem M = nanosOfRemFast rem M := by
  unfold nanosOfRem nanosOfRemFast
  rw [mathPow10_nine]

theorem asIntAdj_eq_fast (n M : ℤ) : asIntAdj n M = asIntAdjFast n M := by
  unfold asIntAdj asIntAdjFast
  rw [mathPow10_neg_nine]

/-! C7 per-multiplier tables: one declaration per multiplier so that the
kernel's evaluation cache for each finite check is released before the next
one starts (a single 57-multiplier check holds the whole evaluation in one
declaration and its transient memory is prohibitive). -/

set_option maxRecDepth 1000000 in
set_option maxHeartbeats 8000000 in
theorem tableCheck1 :
    ∀ rem ∈ Finset.Ioo (-1 : ℤ) 1,
      (rem * 1000000000) % 1 = 0 → asIntAdjFast (nanosOfRemFast rem 1) 1 = rem := by
  decide

set_option maxRecDepth 1000000 in
set_option maxHeartbeats 8000000 in
theorem tableCheck2 :
    ∀ rem ∈ Finset.Ioo (-2 : ℤ) 2,
      (rem * 1000000000) % 2 = 0 → asIntAdjFast (nanosOfRemFast rem 2) 2 = rem := by
  decide

set_option maxRecDepth 1000000 in
set_option maxHeartbeats 8000000 in
theorem tableCheck3 :
    ∀ rem ∈ Finset.Ioo (-3 : ℤ) 3,
      (rem * 1000000000) % 3 = 0 → asIntAdjFast (nanosOfRemFast rem 3) 3 = rem := by
  decide

set_option maxRecDepth 1000000 in
set_option maxHeartbeats 8000000 in
theorem tableCheck4 :
    ∀ rem ∈ Finset.Ioo (-4 : ℤ) 4,
      (rem * 1000000000) % 4 = 0 → asIntAdjFast (nanosOfRemFast rem 4) 4 = rem := by
  decide

set_option maxRecDepth 1000000 in
set_option maxHeartbeats 8000000 in
theorem tableCheck5 :
    ∀ rem ∈ Finset.Ioo (-5 : ℤ) 5,
      (rem * 1000000000) % 5 = 0 → asIntAdjFast (nanosOfRemFast rem 5) 5 = rem := by
  decide

set_option maxRecDepth 1000000 in
set_option maxHeartbeats 8000000 in
theorem tableCheck6 :
    ∀ rem ∈ Finset.Ioo (-6 : ℤ) 6,
      (rem * 1000000000) % 6 = 0 → asIntAdjFast (nanosOfRemFast rem 6) 6 = rem := by
  decide

set_option maxRecDepth 1000000 in
set_option maxHeartbeats 8000000 in
theorem tableCheck7 :
    ∀ rem ∈ Finset.Ioo (-7 : ℤ) 7,
      (rem * 1000000000) % 7 = 0 → asIntAdjFast (nanosOfRemFast rem 7) 7 = rem := by
  decide

set_option maxRecDepth 1000000 in
set_option maxHeartbeats 8000000 in
theorem tableCheck8 :
    ∀ rem ∈ Finset.Ioo (-8 : ℤ) 8,
      (rem * 1000000000) % 8 = 0 → asIntAdjFast (nanosOfRemFast rem 8) 8 = rem := by
  decide

set_option maxRecDepth 1000000 in
set_option maxHeartbeats 8000000 in
theorem tableCheck9 :
    ∀ rem ∈ Finset.Ioo (-9 : ℤ) 9,
      (rem * 1000000000) % 9 = 0 → asIntAdjFast (nanosOfRemFast rem 9) 9 = rem := by
  decide

set_option maxRecDepth 1000000 in
set_option maxHeartbeats 8000000 in
theorem tableCheck10 :
    ∀ rem ∈ Finset.Ioo (-10 : ℤ) 10,
      (rem * 1000000000) % 10 = 0 → asIntAdjFast (nanosOfRemFast rem 10) 10 = rem := by
  decide

set_option maxRecDepth 1000000 in
set_option maxHeartbeats 8000000 in
theorem tableCheck11 :
    ∀ rem ∈ Finset.Ioo (-11 : ℤ) 11,
      (rem * 1000000000) % 11 = 0 → asIntAdjFast (nanosOfRemFast rem 11) 11 = rem := by
  decide

set_option maxRecDepth 1000000 in
set_option maxHeartbeats 8000000 in
theorem tableCheck12 :
    ∀ rem ∈ Finset.Ioo (-12 : ℤ) 12,
      (rem * 1000000000) % 12 = 0 → asIntAdjFast (nanosOfRemFast rem 12) 12 = rem := by
  decide

set_option maxRecDepth 1000000 in
set_option maxHeartbeats 8000000 in
theorem tableCheck13 :
    ∀ rem ∈ Finset.Ioo (-13 : ℤ) 13,
      (rem * 1000000000) % 13 = 0 → asIntAdjFast (nanosOfRemFast rem 13) 13 = rem := by
  decide

set_option maxRecDepth 1000000 in
set_option maxHeartbeats 8000000 in
theorem tableCheck14 :
    ∀ rem ∈ Finset.Ioo (-14 : ℤ) 14,
      (rem * 1000000000) % 14 = 0 → asIntAdjFast (nanosOfRemFast rem 14) 14 = rem := by
  decide

set_option maxRecDepth 1000000 in
set_option maxHeartbeats 8000000 in
theorem tableCheck15 :
    ∀ rem ∈ Finset.Ioo (-15 : ℤ) 15,
      (rem * 1000000000) % 15 = 0 → asIntAdjFast (nanosOfRemFast rem 15) 15 = rem := by
  decide

set_option maxRecDepth 1000000 in
set_option maxHeartbeats 8000000 in
theorem tableCheck16 :
    ∀ rem ∈ Finset.Ioo (-16 : ℤ) 16,
      (rem * 1000000000) % 16 = 0 → asIntAdjFast (nanosOfRemFast rem 16) 16 = rem := by
  decide

set_option maxRecDepth 1000000 in
set_option maxHeartbeats 8000000 in
theorem tableCheck17 :
    ∀ rem ∈ Finset.Ioo (-17 : ℤ) 17,
      (rem * 1000000000) % 17 = 0 → asIntAdjFast (nanosOfRemFast rem 17) 17 = rem := by
  decide

set_option maxRecDepth 1000000 in
set_option maxHeartbeats 8000000 in
theorem tableCheck18 :
    ∀ rem ∈ Finset.Ioo (-18 : ℤ) 18,
      (rem * 1000000000) % 18 = 0 → asIntAdjFast (nanosOfRemFast rem 18) 18 = rem := by
  decide

set_option maxRecDepth 1000000 in
set_option maxHeartbeats 8000000 in
theorem tableCheck19 :
    ∀ rem ∈ Finset.Ioo (-19 : ℤ) 19,
      (rem * 1000000000) % 19 = 0 → asIntAdjFast (nanosOfRemFast rem 19) 19 = rem := by
  decide

set_option maxRecDepth 1000000 in
set_option maxHeartbeats 8000000 in
theorem tableCheck20 :
    ∀ rem ∈ Finset.Ioo (-20 : ℤ) 20,
      (rem * 1000000000) % 20 = 0 → asIntAdjFast (nanosOfRemFast rem 20) 20 = rem := by
  decide

set_option maxRecDepth 1000000 in
set_option maxHeartbeats 8000000 in
theorem tableCheck21 :
    ∀ rem ∈ Finset.Ioo (-21 : ℤ) 21,
      (rem * 1000000000) % 21 = 0 → asIntAdjFast (nanosOfRemFast rem 21) 21 = rem := by
  decide

set_option maxRecDepth 1000000 in
set_option maxHeartbeats 8000000 in
theorem tableCheck22 :
    ∀ rem ∈ Finset.Ioo (-22 : ℤ) 22,
      (rem * 1000000000) % 22 = 0 → asIntAdjFast (nanosOfRemFast rem 22) 22 = rem := by
  decide

set_option maxRecDepth 1000000 in
set_option maxHeartbeats 8000000 in
theorem tableCheck23 :
    ∀ rem ∈ Finset.Ioo (-23 : ℤ) 23,
      (rem * 1000000000) % 23 = 0 → asIntAdjFast (nanosOfRemFast rem 23) 23 = rem := by
  decide

set_option maxRecDepth 1000000 in
set_option maxHeartbeats 8000000 in
theorem tableCheck24 :
    ∀ rem ∈ Finset.Ioo (-24 : ℤ) 24,
      (rem * 1000000000) % 24 = 0 → asIntAdjFast (nanosOfRemFast rem 24) 24 = rem := by
  decide

set_option maxRecDepth 1000000 in
set_option maxHeartbeats 8000000 in
theorem tableCheck25 :
    ∀ rem ∈ Finset.Ioo (-25 : ℤ) 25,
      (rem * 1000000000) % 25 = 0 → asIntAdjFast (nanosOfRemFast rem 25) 25 = rem := by
  decide

set_option maxRecDepth 1000000 in
set_option maxHeartbeats 8000000 in
theorem tableCheck26 :
    ∀ rem ∈ Finset.Ioo (-26 : ℤ) 26,
      (rem * 1000000000) % 26 = 0 → asIntAdjFast (nanosOfRemFast rem 26) 26 = rem := by
  decide

set_option maxRecDepth 1000000 in
set_option maxHeartbeats 8000000 in
theorem tableCheck27 :
    ∀ rem ∈ Finset.Ioo (-27 : ℤ) 27,
      (rem * 1000000000) % 27 = 0 → asIntAdjFast (nanosOfRemFast rem 27) 27 = rem := by
  decide

set_option maxRecDepth 1000000 in
set_option maxHeartbeats 8000000 in
theorem tableCheck28 :
    ∀ rem ∈ Finset.Ioo (-28 : ℤ) 28,
      (rem * 1000000000) % 28 = 0 → asIntAdjFast (nanosOfRemFast rem 28) 28 = rem := by
  decide

set_option maxRecDepth 1000000 in
set_option maxHeartbeats 8000000 in
theorem tableCheck29 :
    ∀ rem ∈ Finset.Ioo (-29 : ℤ) 29,
      (rem * 1000000000) % 29 = 0 → asIntAdjFast (nanosOfRemFast rem 29) 29 = rem := by
  decide

set_option maxRecDepth 1000000 in
set_option maxHeartbeats 8000000 in
theorem tableCheck30 :
    ∀ rem ∈ Finset.Ioo (-30 : ℤ) 30,
      (rem * 1000000000) % 30 = 0 → asIntAdjFast (nanosOfRemFast rem 30) 30 = rem := by
  decide

set_option maxRecDepth 1000000 in
set_option maxHeartbeats 8000000 in
theorem tableCheck31 :
    ∀ rem ∈ Finset.Ioo (-31 : ℤ) 31,
      (rem * 1000000000) % 31 = 0 → asIntAdjFast (nanosOfRemFast rem 31) 31 = rem := by
  decide

set_option maxRecDepth 1000000 in
set_option maxHeartbeats 8000000 in
theorem tableCheck32 :
    ∀ rem ∈ Finset.Ioo (-32 : ℤ) 32,
      (rem * 1000000000) % 32 = 0 → asIntAdjFast (nanosOfRemFast rem 32) 32 = rem := by
  decide

set_option maxRecDepth 1000000 in
set_option maxHeartbeats 8000000 in
theorem tableCheck33 :
    ∀ rem ∈ Finset.Ioo (-33 : ℤ) 33,
      (rem * 1000000000) % 33 = 0 → asIntAdjFast (nanosOfRemFast rem 33) 33 = rem := by
  decide

set_option maxRecDepth 1000000 in
set_option maxHeartbeats 8000000 in
theorem tableCheck34 :
    ∀ rem ∈ Finset.Ioo (-34 : ℤ) 34,
      (rem * 1000000000) % 34 = 0 → asIntAdjFast (nanosOfRemFast rem 34) 34 = rem := by
  decide

set_option maxRecDepth 1000000 in
set_option maxHeartbeats 8000000 in
theorem tableCheck35 :
    ∀ rem ∈ Finset.Ioo (-35 : ℤ) 35,
      (rem * 1000000000) % 35 = 0 → asIntAdjFast (nanosOfRemFast rem 35) 35 = rem := by
  decide

set_option maxRecDepth 1000000 in
set_option maxHeartbeats 8000000 in
theorem tableCheck36 :
    ∀ rem ∈ Finset.Ioo (-36 : ℤ) 36,
      (rem * 1000000000) % 36 = 0 → asIntAdjFast (nanosOfRemFast rem 36) 36 = rem := by
  decide

set_option maxRecDepth 1000000 in
set_option maxHeartbeats 8000000 in
theorem tableCheck37 :
    ∀ rem ∈ Finset.Ioo (-37 : ℤ) 37,
      (rem * 1000000000) % 37 = 0 → asIntAdjFast (nanosOfRemFast rem 37) 37 = rem := by
  decide

set_option maxRecDepth 1000000 in
set_option maxHeartbeats 8000000 in
theorem tableCheck38 :
    ∀ rem ∈ Finset.Ioo (-38 : ℤ) 38,
      (rem * 1000000000) % 38 = 0 → asIntAdjFast (nanosOfRemFast rem 38) 38 = rem := by
  decide

set_option maxRecDepth 1000000 in
set_option maxHeartbeats 8000000 in
theorem tableCheck39 :
    ∀ rem ∈ Finset.Ioo (-39 : ℤ) 39,
      (rem * 1000000000) % 39 = 0 → asIntAdjFast (nanosOfRemFast rem 39) 39 = rem := by
  decide

set_option maxRecDepth 1000000 in
set_option maxHeartbeats 8000000 in
theorem tableCheck40 :
    ∀ rem ∈ Finset.Ioo (-40 : ℤ) 40,
      (rem * 1000000000) % 40 = 0 → asIntAdjFast (nanosOfRemFast rem 40) 40 = rem := by
  decide

set_option maxRecDepth 1000000 in
set_option maxHeartbeats 8000000 in
theorem tableCheck41 :
    ∀ rem ∈ Finset.Ioo (-41 : ℤ) 41,
      (rem * 1000000000) % 41 = 0 → asIntAdjFast (nanosOfRemFast rem 41) 41 = rem := by
  decide

set_option maxRecDepth 1000000 in
set_option maxHeartbeats 8000000 in
theorem tableCheck42 :
    ∀ rem ∈ Finset.Ioo (-42 : ℤ) 42,
      (rem * 1000000000) % 42 = 0 → asIntAdjFast (nanosOfRemFast rem 42) 42 = rem := by
  decide

set_option maxRecDepth 1000000 in
set_option maxHeartbeats 8000000 in
theorem tableCheck43 :
    ∀ rem ∈ Finset.Ioo (-43 : ℤ) 43,
      (rem * 1000000000) % 43 = 0 → asIntAdjFast (nanosOfRemFast rem 43) 43 = rem := by
  decide

set_option maxRecDepth 1000000 in
set_option maxHeartbeats 8000000 in
theorem tableCheck44 :
    ∀ rem ∈ Finset.Ioo (-44 : ℤ) 44,
      (rem * 1000000000) % 44 = 0 → asIntAdjFast (nanosOfRemFast rem 44) 44 = rem := by
  decide

set_option maxRecDepth 1000000 in
set_option maxHeartbeats 8000000 in
theorem tableCheck45 :
    ∀ rem ∈ Finset.Ioo (-45 : ℤ) 45,
      (rem * 1000000000) % 45 = 0 → asIntAdjFast (nanosOfRemFast rem 45) 45 = rem := by
  decide

set_option maxRecDepth 1000000 in
set_option maxHeartbeats 8000000 in
theorem tableCheck46 :
    ∀ rem ∈ Finset.Ioo (-46 : ℤ) 46,
      (rem * 1000000000) % 46 = 0 → asIntAdjFast (nanosOfRemFast rem 46) 46 = rem := by
  decide

set_option maxRecDepth 1000000 in
set_option maxHeartbeats 8000000 in
theorem tableCheck47 :
    ∀ rem ∈ Finset.Ioo (-47 : ℤ) 47,
      (rem * 1000000000) % 47 = 0 → asIntAdjFast (nanosOfRemFast rem 47) 47 = rem := by
  decide

set_option maxRecDepth 1000000 in
set_option maxHeartbeats 8000000 in
theorem tableCheck48 :
    ∀ rem ∈ Finset.Ioo (-48 : ℤ) 48,
      (rem * 1000000000) % 48 = 0 → asIntAdjFast (nanosOfRemFast rem 48) 48 = rem := by
  decide

set_option maxRecDepth 1000000 in
set_option maxHeartbeats 8000000 in
theorem tableCheck49 :
    ∀ rem ∈ Finset.Ioo (-49 : ℤ) 49,
      (rem * 1000000000) % 49 = 0 → asIntAdjFast (nanosOfRemFast rem 49) 49 = rem := by
  decide

set_option maxRecDepth 1000000 in
set_option maxHeartbeats 8000000 in
theorem tableCheck50 :
    ∀ rem ∈ Finset.Ioo (-50 : ℤ) 50,
      (rem * 1000000000) % 50 = 0 → asIntAdjFast (nanosOfRemFast rem 50) 50 = rem := by
  decide

set_option maxRecDepth 1000000 in
set_option maxHeartbeats 8000000 in
theorem tableCheck51 :
    ∀ rem ∈ Finset.Ioo (-51 : ℤ) 51,
      (rem * 1000000000) % 51 = 0 → asIntAdjFast (nanosOfRemFast rem 51) 51 = rem := by
  decide

set_option maxRecDepth 1000000 in
set_option maxHeartbeats 8000000 in
theorem tableCheck52 :
    ∀ rem ∈ Finset.Ioo (-52 : ℤ) 52,
      (rem * 1000000000) % 52 = 0 → asIntAdjFast (nanosOfRemFast rem 52) 52 = rem := by
  decide

set_option maxRecDepth 1000000 in
set_option maxHeartbeats 8000000 in
theorem tableCheck53 :
    ∀ rem ∈ Finset.Ioo (-53 : ℤ) 53,
      (rem * 1000000000) % 53 = 0 → asIntAdjFast (nanosOfRemFast rem 53) 53 = rem := by
  decide

set_option maxRecDepth 1000000 in
set_option maxHeartbeats 8000000 in
theorem tableCheck54 :
    ∀ rem ∈ Finset.Ioo (-54 : ℤ) 54,
      (rem * 1000000000) % 54 = 0 → asIntAdjFast (nanosOfRemFast rem 54) 54 = rem := by
  decide

set_option maxRecDepth 1000000 in
set_option maxHeartbeats 8000000 in
theorem tableCheck55 :
    ∀ rem ∈ Finset.Ioo (-55 : ℤ) 55,
      (rem * 1000000000) % 55 = 0 → asIntAdjFast (nanosOfRemFast rem 55) 55 = rem := by
  decide

set_option maxRecDepth 1000000 in
set_option maxHeartbeats 8000000 in
theorem tableCheck56 :
    ∀ rem ∈ Finset.Ioo (-56 : ℤ) 56,
      (rem * 1000000000) % 56 = 0 → asIntAdjFast (nanosOfRemFast rem 56) 56 = rem := by
  decide

set_option maxRecDepth 1000000 in
set_option maxHeartbeats 8000000 in
theorem tableCheck57 :
    ∀ rem ∈ Finset.Ioo (-57 : ℤ) 57,
      (rem * 1000000000) % 57 = 0 → asIntAdjFast (nanosOfRemFast rem 57) 57 = rem := by
  decide

/-- C7 (table, in source terms): for every multiplier between 1 and 57 and
every remainder meeting the exactness condition, the nanos rescaling of
fromInt composed with the rescaling of asInt is the identity. -/
theorem roundtrip_table :
    ∀ M ∈ Finset.Icc (1 : ℤ) 57, ∀ rem ∈ Finset.Ioo (-M) M,
      (rem * 1000000000) % M = 0 → asIntAdj (nanosOfRem rem M) M = rem := by
  intro M hM
  have hb := Finset.mem_Icc.mp hM
  have h1 := hb.1
  have h2 := hb.2
  intro rem hrem hcond
  rw [nanosOfRem_eq_fast, asIntAdj_eq_fast]
  revert hcond hrem
  revert rem
  interval_cases M
  · exact tableCheck1
  · exact tableCheck2
  · exact tableCheck3
  · exact tableCheck4
  · exact tableCheck5
  · exact tableCheck6
  · exact tableCheck7
  · exact tableCheck8
  · exact tableCheck9
  · exact tableCheck10
  · exact tableCheck11
  · exact tableCheck12
  · exact tableCheck13
  · exact tableCheck14
  · exact tableCheck15
  · exact tableCheck16
  · exact tableCheck17
  · exact tableCheck18
  · exact tableCheck19
  · exact tableCheck20
  · exact tableCheck21
  · exact tableCheck22
  · exact tableCheck23
  · exact tableCheck24
  · exact tableCheck25
  · exact tableCheck26
  · exact tableCheck27
  · exact tableCheck28
  · exact tableCheck29
  · exact tableCheck30
  · exact tableCheck31
  · exact tableCheck32
  · exact tableCheck33
  · exact tableCheck34
  · exact tableCheck35
  · exact tableCheck36
  · exact tableCheck37
  · exact tableCheck38
  · exact tableCheck39
  · exact tableCheck40
  · exact tableCheck41
  · exact tableCheck42
  · exact tableCheck43
  · exact tableCheck44
  · exact tableCheck45
  · exact tableCheck46
  · exact tableCheck47
  · exact tableCheck48
  · exact tableCheck49
  · exact tableCheck50
  · exact tableCheck51
  · exact tableCheck52
  · exact tableCheck53
  · exact tableCheck54
  · exact tableCheck55
  · exact tableCheck56
  · exact tableCheck57

/-- C7 (amended): the conversion round trip
AsInt64 (FromInt64 A M "X") M = A holds for every int64 amount A and every
multiplier M between 1 and 57 for which the rescaled remainder
(A mod M)*10^9/M is an integer; M = 58 is the first multiplier violating it. -/
theorem roundtrip_small_multiplier (A M : ℤ) (hA1 : -(2 ^ 63) ≤ A) (hA2 : A < 2 ^ 63)
    (hM1 : 1 ≤ M) (hM2 : M ≤ 57)
    (hexact : (Int.tmod A M * 1000000000) % M = 0) :
    AsInt64 (some (FromInt64 A M "X")) M = A := by
  by_cases hA : A = 0
  · subst hA
    have h0 : wrap64 0 = 0 := by decide
    simp [AsInt64, asInt, FromInt64, fromInt, asIntAdj, h0]
  · have hMpos : (0 : ℤ) < M := hM1
    have hup : Int.tmod A M < M := Int.tmod_lt_of_pos A hMpos
    have hlo : -M < Int.tmod A M := by
      rcases le_or_lt 0 A with h0 | h0
      · have := Int.tmod_nonneg M h0
        linarith
      · have h1 : Int.tmod A M = -Int.tmod (-A) M := by
          rw [← tmod_neg_dividend, neg_neg]
        have h2 : Int.tmod (-A) M < M := Int.tmod_lt_of_pos (-A) hMpos
        rw [h1]
        linarith
    have htab := roundtrip_table M (Finset.mem_Icc.mpr ⟨hM1, hM2⟩) (Int.tmod A M)
      (Finset.mem_Ioo.mpr ⟨hlo, hup⟩) hexact
    have hfrom : fromInt A M "X" = ⟨Int.tdiv A M, nanosOfRem (Int.tmod A M) M, "X"⟩ := by
      simp [fromInt, hA]
    show asInt (some (fromInt A M "X")) M = A
    rw [hfrom]
    show wrap64 (wrap64 (Int.tdiv A M * M) + asIntAdj (nanosOfRem (Int.tmod A M) M) M) = A
    rw [htab]
    have hid : Int.tdiv A M * M = A - Int.tmod A M := by
      have h := Int.tdiv_add_tmod A M
      linarith
    rw [hid]
    have hbig : (57 : ℤ) < 2 ^ 63 := by norm_num
    have hw1 : wrap64 (A - Int.tmod A M) = A - Int.tmod A M := by
      rcases le_or_lt 0 A with h0 | h0
      · have hr : 0 ≤ Int.tmod A M := Int.tmod_nonneg M h0
        exact wrap64_eq_self (by linarith) (by linarith)
      · have hr : Int.tmod A M ≤ 0 := by
          have h1 : Int.tmod A M = -Int.tmod (-A) M := by
            rw [← tmod_neg_dividend, neg_neg]
          have h2 : 0 ≤ Int.tmod (-A) M := Int.tmod_nonneg M (by linarith)
          rw [h1]
          linarith
        exact wrap64_eq_self (by linarith) (by linarith)
    rw [hw1]
    have hsum : A - Int.tmod A M + Int.tmod A M = A := by ring
    rw [hsum]
    exact wrap64_eq_self hA1 hA2

set_option maxRecDepth 100000 in
theorem roundtrip_small_multiplier_witness :
    ((-(2 ^ 63) : ℤ) ≤ 123456789 ∧ (123456789 : ℤ) < 2 ^ 63 ∧ (1 : ℤ) ≤ 50 ∧ (50 : ℤ) ≤ 57 ∧
      (Int.tmod 123456789 50 * 1000000000) % 50 = 0) ∧
    AsInt64 (some (FromInt64 123456789 50 "X")) 50 = 123456789 :=
  ⟨⟨by decide, by decide, by decide, by decide, by decide⟩,
   roundtrip_small_multiplier 123456789 50 (by decide) (by decide) (by decide) (by decide)
     (by decide)⟩

set_option maxRecDepth 100000 in
/-- C8 helper: Mulv2 rounds the cross term half-up to 1 nano. -/
theorem mulv2_at_7_nanos :
    Mulv2 (some ⟨0, 7, "C"⟩) (fl (mkRat 1 10)) = some (.ok ⟨0, 1, "C"⟩) := by decide

set_option maxRecDepth 100000 in
/-- C8 helper: MulNew truncates the cross term to 0 nanos. -/
theorem mulNew_at_7_nanos :
    MulNew (some ⟨0, 7, "C"⟩) (fl (mkRat 1 10)) = some (.ok ⟨0, 0, "C"⟩) := by decide

set_option maxRecDepth 100000 in
/-- C8 helper: Mul's integer division drops the cross term to 0 nanos. -/
theorem mul_at_7_nanos :
    Mul (some ⟨0, 7, "C"⟩) (fl (mkRat 1 10)) = some (.ok ⟨0, 0, "C"⟩) := by decide

/-- C8 (counterexample): at operand {units 0, nanos 7} and rate 0.1 the
three multiplication implementations disagree: Mulv2 rounds the
nanos-fraction cross term half-up and returns 1 nano, while MulNew and Mul
truncate and return 0. -/
theorem muls_disagree_cex :
    Mulv2 (some ⟨0, 7, "C"⟩) (fl (mkRat 1 10)) = some (.ok ⟨0, 1, "C"⟩) ∧
    MulNew (some ⟨0, 7, "C"⟩) (fl (mkRat 1 10)) = some (.ok ⟨0, 0, "C"⟩) ∧
    Mul (some ⟨0, 7, "C"⟩) (fl (mkRat 1 10)) = some (.ok ⟨0, 0, "C"⟩) :=
  ⟨mulv2_at_7_nanos, mulNew_at_7_nanos, mul_at_7_nanos⟩

/-- C8 (amended): the three implementations share the guard structure, so
for every operand and multiplier they produce the same error outcome
(fault, InvalidMultiplier, InvalidValue, or success); their successful
results may differ only in rounding. -/
theorem muls_agree_on_error_outcome (l : Option Money) (r : ℚ) :
    errPart (Mulv2 l r) = errPart (MulNew l r) ∧
    errPart (MulNew l r) = errPart (Mul l r) := by
  cases l <;> (unfold Mulv2 MulNew Mul; split_ifs <;> simp [errPart])

set_option maxRecDepth 100000 in
/-- C9 (counterexample): the whole number 5 renders as "5" with no decimal
point, so the vs[1] access in DivideBy100 is out of bounds (a Go panic,
modelled as none) — DivideBy100 is not total on non-negative finite floats. -/
theorem divideBy100_whole_number_fault_cex :
    formatG (5 : ℚ) = "5" ∧ DivideBy100 (5 : ℚ) = none := by decide

/-- C9 (amended): DivideBy100 returns a value exactly when splitting the 'G'
rendering on '.' yields both an integer-part and a fractional-part fragment;
otherwise the vs[1] access is out of bounds. -/
theorem divideBy100_defined_iff_split_has_fraction (v : ℚ) :
    (DivideBy100 v).isSome = true ↔ 2 ≤ (splitChar '.' (formatGChars v)).length := by
  unfold DivideBy100
  rcases h : splitChar '.' (formatGChars v) with _ | ⟨a, _ | ⟨b, t⟩⟩ <;> simp

/-- C10 (counterexample): on the nil operand with rate 0 Mulv2 does not
return the zero Money — it faults (nil-pointer dereference on
l.CurrencyCode in the zero branch, modelled as none). -/
theorem mulv2_nil_operand_fault_cex :
    Mulv2 none 0 = none ∧
    (none : Option (Except GoErr Money)) ≠ some (.ok ⟨0, 0, ""⟩) := by decide

/-- C10 (amended): the nil operand passes IsValid and IsZero through the
absence-defaulting getters, but for every non-negative rate Mulv2 then
faults on the direct l.CurrencyCode field access instead of returning. -/
theorem mulv2_nil_passes_guards_then_faults (r : ℚ) (hr : 0 ≤ r) :
    IsValid none = true ∧ IsZero none = true ∧ Mulv2 none r = none := by
  refine ⟨rfl, rfl, ?_⟩
  unfold Mulv2
  rw [if_neg (not_lt.mpr hr)]
  have h1 : IsValid none = true := rfl
  have h2 : IsZero none = true := rfl
  simp [h1, h2]

theorem mulv2_nil_passes_guards_then_faults_witness :
    (0 : ℚ) ≤ 1 ∧ (IsValid none = true ∧ IsZero none = true ∧ Mulv2 none 1 = none) :=
  ⟨by decide, mulv2_nil_passes_guards_then_faults 1 (by decide)⟩

end MoneyCalc
